import Mathlib

/-!
Shallow embedding of doogie's `PageIndex` (src/page_index.cc) and proofs about the
spec's claims.  Strings are modelled as Lean `String`s (with the computations done on
their underlying `List Char`), the SQLite store as explicit lists of records, and the
fallibility of the storage collaborator as an explicit error schedule (`List Bool`,
one entry consumed per storage operation, an empty schedule meaning every operation
succeeds).
-/

namespace Doogie

/-- Whitespace predicate of `QChar::isSpace` restricted to the ASCII range (the
Unicode separator characters play no role in any claim). Used by the model of
`QString::trimmed`. -/
def qIsSpace (c : Char) : Bool :=
  c = ' ' || c = '\t' || c = '\n' || c = '\x0b' || c = '\x0c' || c = '\r'

/-- Model of `QString::trimmed`: drop leading and trailing whitespace. -/
def qTrimData (l : List Char) : List Char :=
  ((l.dropWhile qIsSpace).reverse.dropWhile qIsSpace).reverse

/-- Model of `.replace('"', "\"\"")`: double every quote character
(page_index.cc line 20). -/
def doubleQ : List Char → List Char
  | [] => []
  | c :: rest => if c = '"' then '"' :: '"' :: doubleQ rest else c :: doubleQ rest

/-- Model of `QString::split(' ')` without `SkipEmptyParts`: split at every space
character, keeping empty pieces. -/
def splitCh : List Char → List (List Char)
  | [] => [[]]
  | c :: rest =>
    if c = ' ' then [] :: splitCh rest
    else
      match splitCh rest with
      | [] => [[c]]
      | g :: gs => (c :: g) :: gs

/-- Model of `QString::SkipEmptyParts` applied on top of the split: the non-empty
pieces, in order. -/
def nonEmptyParts (l : List Char) : List (List Char) :=
  (splitCh l).filter (fun p => !p.isEmpty)

/-- The `to_search` string built by `PageIndex::AutocompleteSuggest`
(page_index.cc lines 19-23): start from `" "`, then for each piece of the trimmed,
quote-doubled text split on `' '` (empties skipped) append `'"' + piece + "\"* "`. -/
def toSearchData (l : List Char) : List Char :=
  ' ' :: ((nonEmptyParts (doubleQ (qTrimData l))).map
    (fun p => '"' :: (p ++ ['"', '*', ' ']))).flatten

/-- String-level wrapper for `toSearchData`. -/
def toSearch (text : String) : String :=
  ⟨toSearchData text.data⟩

/-- A single wrapped search token as claim C6 words it: the token, its embedded
quotes doubled, wrapped in quotes and followed by the wildcard marker `*`. -/
def wrapTokenClaim (t : List Char) : List Char :=
  '"' :: (doubleQ t ++ ['"', '*'])

/-- Splitting on arbitrary whitespace (keeping empty pieces); used only by the
formalisation of claim C6's own wording, which says the trimmed text is split "on
whitespace". -/
def splitWsCh : List Char → List (List Char)
  | [] => [[]]
  | c :: rest =>
    if qIsSpace c then [] :: splitWsCh rest
    else
      match splitWsCh rest with
      | [] => [[c]]
      | g :: gs => (c :: g) :: gs

/-- The search string exactly as claim C6 describes it: split the trimmed text on
whitespace into non-empty tokens, double each token's embedded quotes, wrap each
token in quotes followed by a wildcard marker, and join the wrapped tokens with
spaces. -/
def toSearchClaimData (l : List Char) : List Char :=
  List.intercalate [' ']
    (((splitWsCh (qTrimData l)).filter (fun p => !p.isEmpty)).map wrapTokenClaim)

/-- String-level wrapper for `toSearchClaimData`. -/
def toSearchClaim (text : String) : String :=
  ⟨toSearchClaimData text.data⟩

/-- The search string as the amended claim C6 describes it: split the trimmed text
on the space character into non-empty tokens, double each token's embedded quotes,
wrap each token in quotes followed by a wildcard marker, join the wrapped tokens
with single spaces, and surround the whole with a leading space and (when at least
one token exists) a trailing space. -/
def toSearchAmendedData (l : List Char) : List Char :=
  match ((splitCh (qTrimData l)).filter (fun p => !p.isEmpty)).map wrapTokenClaim with
  | [] => [' ']
  | t :: ts => ' ' :: (List.intercalate [' '] (t :: ts) ++ [' '])

/-- String-level wrapper for `toSearchAmendedData`. -/
def toSearchAmended (text : String) : String :=
  ⟨toSearchAmendedData text.data⟩

/-- Field-width padding of `QString::arg(const QString, int fieldWidth, QChar
fillChar = ' ')`: a positive width right-aligns (pads on the left), a negative
width left-aligns (pads on the right). -/
def padFieldData (a : List Char) (w : Int) : List Char :=
  if a.length < w.toNat then List.replicate (w.toNat - a.length) ' ' ++ a
  else if a.length < (-w).toNat then a ++ List.replicate ((-w).toNat - a.length) ' '
  else a

/-- Replace every occurrence of the place marker `%1` in the template by the given
(already padded) text, scanning left to right and never rescanning inserted text;
this is how `QString::arg` treats its lowest-numbered marker, which in the
autocomplete template is `%1`.  Higher markers such as `%2` are left untouched. -/
def substMarker1 (a : List Char) : List Char → List Char
  | [] => []
  | '%' :: '1' :: rest => a ++ substMarker1 a rest
  | c :: rest => c :: substMarker1 a rest

/-- Model of the single `QString::arg` call on page_index.cc line 35:
`.arg(to_search, count)` resolves to the overload
`arg(const QString &a, int fieldWidth = 0, QChar fillChar = ' ')` (an `int` does
not convert to `QString`, so the two-string overload does not apply).  Hence only
the marker `%1` is substituted — padded to field width `count` — and the marker
`%2` after `LIMIT` is never replaced. -/
def qtArgFieldWidth (tmpl a : String) (fieldWidth : Int) : String :=
  ⟨substMarker1 (padFieldData a.data fieldWidth) tmpl.data⟩

/-- The SQL template of `PageIndex::AutocompleteSuggest` (page_index.cc lines
27-35), the adjacent C++ string literals concatenated. -/
def autocompleteSqlTemplate : String :=
  "SELECT ap.url, ap.title, f.url as favicon_url " ++
  "FROM autocomplete_page_fts apf(\x27%1\x27) " ++
  "  JOIN autocomplete_page ap ON " ++
  "    ap.id = apf.rowid " ++
  "  LEFT JOIN favicon f " ++
  "    ON f.id = ap.favicon_id " ++
  "ORDER BY apf.frecency " ++
  "LIMIT %2"

/-- The final SQL text `AutocompleteSuggest` hands to `Sql::Exec` for a given input
text and count. -/
def autocompleteSqlFor (text : String) (count : Int) : String :=
  qtArgFieldWidth autocompleteSqlTemplate (toSearch text) count

/-- Modelled from the spec: `Util::HashString` (util.cc is not under src).  The
spec requires only a pure fingerprint function of the string, collisions
permitted, because every lookup compares the url itself alongside the hash. -/
def HashString (s : String) : Int :=
  s.data.foldl (fun a c => a * 31 + Int.ofNat c.toNat) 7

/-- Modelled from the spec: `kVisitTimeWorthSeconds` is declared in page_index.h,
which is not under src; the spec fixes no numeric value (it is "how many seconds
of simulated recency one additional visit is worth") and no claim depends on the
value. -/
def kVisitTimeWorthSeconds : Int := 86400

/-- Modelled from the spec: `kExpireNotVisitedSinceSeconds` (the retention window)
is declared in page_index.h, which is not under src; the claims are stated
relative to it, never to its numeric value. -/
def kExpireNotVisitedSinceSeconds : Int := 7776000

/-- One row of the `favicon` table. -/
structure FaviconRecord where
  id : Nat
  url : String
  url_hash : Int
  data_key : Int
  data : List Nat
deriving Repr, DecidableEq

/-- One row of the `autocomplete_page` table. -/
structure PageRecord where
  url : String
  url_hash : Int
  schemeless_url : String
  title : String
  favicon_id : Option Nat
  last_visited : Int
  visit_count : Int
  frecency : Int
deriving Repr, DecidableEq

/-- The SQLite database: both tables plus the generator for `favicon.id`
(`lastInsertId`). -/
structure Store where
  pages : List PageRecord
  favicons : List FaviconRecord
  next_favicon_id : Nat
deriving Repr, DecidableEq

/-- A `QIcon` that is not null: its platform `cacheKey` fingerprint and the bytes
its 16x16 pixmap encodes to (the PNG codec is the spec's opaque collaborator, so
the bytes themselves are the model).  A null icon is `Option.none`. -/
structure Icon where
  cacheKey : Int
  png : List Nat
deriving Repr, DecidableEq

/-- Consume one entry of the storage error schedule; an exhausted schedule means
the operation succeeds. -/
def popE : List Bool → Bool × List Bool
  | [] => (false, [])
  | e :: t => (e, t)

/-- Value of an all-digit character list read in base 10. -/
def digitsVal (l : List Char) : Int :=
  l.foldl (fun a c => a * 10 + Int.ofNat (c.toNat - 48)) 0

/-- SQLite NUMERIC affinity applied to a text operand: the text converts to an
integer only when it is (an optional minus sign followed by) a non-empty run of
digits; otherwise it stays text and can never equal an integer. -/
def textToIntAff (l : List Char) : Option Int :=
  match l with
  | [] => none
  | c :: rest =>
    if c = '-' then
      if rest ≠ [] ∧ rest.all Char.isDigit then some (0 - digitsVal rest) else none
    else
      if (c :: rest).all Char.isDigit then some (digitsVal (c :: rest)) else none

/-- Comparison of an INTEGER-affinity column value against a bound text parameter
(SQLite applies numeric affinity to the text operand). -/
def intEqTextAff (n : Int) (s : String) : Bool :=
  match textToIntAff s.data with
  | some m => n == m
  | none => false

/-- Decimal rendering of an integer. -/
def intToDecimalData (n : Int) : List Char :=
  if n < 0 then '-' :: Nat.toDigits 10 (-n).toNat else Nat.toDigits 10 n.toNat

/-- Comparison of a TEXT-affinity column value against a bound integer parameter
(SQLite applies text affinity, i.e. the integer is rendered in decimal). -/
def textEqIntAff (s : String) (n : Int) : Bool :=
  s.data == intToDecimalData n

/-- The WHERE clause of the UPDATE in `PageIndex::MarkVisit` as the source binds it
(page_index.cc lines 73-75): the clause reads `url_hash = ?7 AND url = ?8`, but the
parameter list ends `{ ..., url, hash }`, so the page's integer `url_hash` column is
compared against the url string and its text `url` column against the integer
hash. -/
def markVisitUpdateMatches (urlParam : String) (hashParam : Int) (r : PageRecord) : Bool :=
  intEqTextAff r.url_hash urlParam && textEqIntAff r.url hashParam

/-- Lookup predicate `WHERE url_hash = ? AND url = ?` of the `favicon` table, with
the parameters bound in the written order. -/
def faviconMatch (hash : Int) (url : String) (f : FaviconRecord) : Bool :=
  f.url_hash == hash && f.url == url

/-- The UPDATE of a stale favicon row (page_index.cc lines 149-155): set
`data_key` and `data` on the row whose id matches, leave every other row
alone. -/
def faviconUpd (i : Nat) (k : Int) (d : List Nat) (f : FaviconRecord) : FaviconRecord :=
  if f.id == i then { f with data_key := k, data := d } else f

/-- Model of `PageIndex::FaviconId` (page_index.cc lines 126-168).  Returns the
favicon reference (`none` models the null `QVariant(QVariant::LongLong)`), the
possibly updated store, and the unconsumed error schedule.  A failing SELECT
returns null; a failing UPDATE of a stale row is ignored and the existing id still
returned; a failing INSERT returns null. -/
def FaviconId (st : Store) (url : String) (favicon : Option Icon) (errs : List Bool) :
    Option Nat × Store × List Bool :=
  match favicon with
  | none => (none, st, errs)
  | some icon =>
    if url.data.isEmpty then (none, st, errs)
    else
      let hash := HashString url
      let e1 := popE errs
      if e1.1 then (none, st, e1.2)
      else
        match st.favicons.find? (faviconMatch hash url) with
        | some fr =>
          if icon.cacheKey != fr.data_key then
            let e2 := popE e1.2
            if e2.1 then (some fr.id, st, e2.2)
            else
              (some fr.id,
               { st with favicons :=
                   st.favicons.map (faviconUpd fr.id icon.cacheKey icon.png) },
               e2.2)
          else (some fr.id, st, e1.2)
        | none =>
          let e2 := popE e1.2
          if e2.1 then (none, st, e2.2)
          else
            (some st.next_favicon_id,
             { st with
                 favicons := st.favicons ++
                   [⟨st.next_favicon_id, url, hash, icon.cacheKey, icon.png⟩],
                 next_favicon_id := st.next_favicon_id + 1 },
             e2.2)

/-- Heads of the scheme separator: true when the list starts with `"://"`. -/
def startsWithSep : List Char → Bool
  | c1 :: c2 :: c3 :: _ => (c1 == ':') && (c2 == '/') && (c3 == '/')
  | _ => false

/-- Model of `url.indexOf("://")`: character index of the first occurrence of the
scheme separator, `none` when absent. -/
def sepIndex : List Char → Option Nat
  | [] => none
  | c :: rest =>
    if startsWithSep (c :: rest) then some 0
    else (sepIndex rest).map (fun i => i + 1)

/-- Whether the url contains a scheme separator. -/
def hasSchemeSep (url : String) : Bool :=
  (sepIndex url.data).isSome

/-- The schemeless url `url.mid(scheme_sep + 3)`: everything after the first
scheme separator (the url itself when no separator exists, a case `MarkVisit`
rejects before using it). -/
def schemelessUrl (url : String) : String :=
  match sepIndex url.data with
  | none => url
  | some i => ⟨url.data.drop (i + 3)⟩

/-- The SET clause of the UPDATE in `PageIndex::MarkVisit` applied to a matching
row: new `schemeless_url`, `title`, `favicon_id`, `last_visited = now`,
`visit_count = visit_count + 1` and `frecency = now + (visit_count + 1) *
kVisitTimeWorthSeconds`, the right-hand sides reading the old row. -/
def updatedPage (now : Int) (fid : Option Nat) (schemeless title : String)
    (r : PageRecord) : PageRecord :=
  { r with
      schemeless_url := schemeless, title := title, favicon_id := fid,
      last_visited := now, visit_count := r.visit_count + 1,
      frecency := now + (r.visit_count + 1) * kVisitTimeWorthSeconds }

/-- Model of `PageIndex::MarkVisit` (page_index.cc lines 47-87).  Returns the
success flag and the resulting store.  `now` stands for
`QDateTime::currentSecsSinceEpoch()` and `errs` is the storage error schedule,
threaded first through `FaviconId`, then the UPDATE, then (when the UPDATE
affected no row) the INSERT. -/
def MarkVisit (st : Store) (url title favicon_url : String) (favicon : Option Icon)
    (now : Int) (errs : List Bool) : Bool × Store :=
  match sepIndex url.data with
  | none => (false, st)
  | some i =>
    let hash := HashString url
    let schemeless : String := ⟨url.data.drop (i + 3)⟩
    let fres := FaviconId st favicon_url favicon errs
    let fid := fres.1
    let st1 := fres.2.1
    let e1 := popE fres.2.2
    if e1.1 then (false, st1)
    else
      let hits := st1.pages.countP (markVisitUpdateMatches url hash)
      let st2 : Store :=
        { st1 with pages := st1.pages.map (fun r =>
            if markVisitUpdateMatches url hash r then updatedPage now fid schemeless title r
            else r) }
      if hits > 0 then (true, st2)
      else
        let e2 := popE e1.2
        if e2.1 then (false, st2)
        else
          (true,
           { st2 with pages := st2.pages ++
               [⟨url, hash, schemeless, title, fid, now, 1, now + kVisitTimeWorthSeconds⟩] })

/-- Model of `PageIndex::CachedFavicon` (page_index.cc lines 89-107): an empty url
yields the empty icon; otherwise the process-local pixmap cache is consulted under
the key `"doogie:favicon_" + url`, and on a miss the encoded bytes are looked up
by `(url_hash, url)` in the favicon table (an absent row — which is also how a
failed lookup surfaces through `ExecSingleParam` — yields the empty icon),
decoded, and inserted into the cache. -/
def CachedFavicon (st : Store) (cache : List (String × List Nat)) (url : String) :
    Option (List Nat) × List (String × List Nat) :=
  if url.data.isEmpty then (none, cache)
  else
    let key := "doogie:favicon_" ++ url
    match cache.lookup key with
    | some pm => (some pm, cache)
    | none =>
      match st.favicons.find? (faviconMatch (HashString url) url) with
      | none => (none, cache)
      | some fr => (some fr.data, (key, fr.data) :: cache)

/-- One row of the autocomplete result set as the engine returns it; a NULL
`favicon_url` from the LEFT JOIN surfaces as the empty string through
`QVariant::toString`. -/
structure SuggestRow where
  url : String
  title : String
  favicon_url : String
deriving Repr, DecidableEq

/-- One entry of `AutocompleteSuggest`'s result. -/
structure AutocompletePage where
  url : String
  title : String
  favicon : Option (List Nat)
deriving Repr, DecidableEq

/-- Modelled from the spec: the property of the external storage collaborator
that it cannot execute a statement whose LIMIT clause is still the unsubstituted
place marker `%2` (the autocomplete template keeps `LIMIT %2` as its final
characters); such an execute reports failure. -/
def rejectsBadLimit (engine : String → Option (List SuggestRow)) : Prop :=
  ∀ s : String, ("%2".data).isSuffixOf s.data = true → engine s = none

/-- Model of `PageIndex::AutocompleteSuggest` (page_index.cc lines 14-45).  The
external search engine is a parameter mapping the final SQL text to either `none`
(execution failed) or the returned rows.  The result is the suggestion list
together with the list of statements actually handed to storage (empty exactly
when storage was never touched). -/
def AutocompleteSuggest (engine : String → Option (List SuggestRow)) (st : Store)
    (cache : List (String × List Nat)) (text : String) (count : Int) :
    List AutocompletePage × List String :=
  let to_search := toSearch text
  if to_search.data.length = 1 then ([], [])
  else
    let sql := qtArgFieldWidth autocompleteSqlTemplate to_search count
    match engine sql with
    | none => ([], [sql])
    | some rows =>
      let step := fun (acc : List AutocompletePage × List (String × List Nat))
          (row : SuggestRow) =>
        let cf := CachedFavicon st acc.2 row.favicon_url
        (acc.1 ++ [⟨row.url, row.title, cf.1⟩], cf.2)
      ((rows.foldl step ([], cache)).1, [sql])

/-- Model of `PageIndex::DoExpiration` (page_index.cc lines 109-124), one Expirer
sweep at time `now`: first delete every page with `last_visited < now -
kExpireNotVisitedSinceSeconds`, then delete every favicon whose id is IN the set
of `favicon_id` values of the remaining pages (the source says `IN`, not
`NOT IN`). -/
def DoExpiration (st : Store) (now : Int) : Store :=
  let old := now - kExpireNotVisitedSinceSeconds
  let pages2 := st.pages.filter (fun r => !decide (r.last_visited < old))
  let favicons2 := st.favicons.filter (fun f =>
    !(pages2.any (fun p => p.favicon_id == some f.id)))
  { st with pages := pages2, favicons := favicons2 }

/-- Whether the pattern occurs as a contiguous subsequence of the list; used to
state that the autocomplete SQL template contains no `DESC`. -/
def hasSeq (pat : List Char) : List Char → Bool
  | [] => pat.isEmpty
  | c :: rest => pat.isPrefixOf (c :: rest) || hasSeq pat rest

/-- The favicon upsert on the all-operations-succeed schedule, projected to the
pair a caller observes: the returned reference and the resulting store. -/
def upsertIcon (st : Store) (url : String) (k : Int) (d : List Nat) : Option Nat × Store :=
  ((FaviconId st url (some ⟨k, d⟩) []).1, (FaviconId st url (some ⟨k, d⟩) []).2.1)

/-- The store after one successful `MarkVisit` of `http://example.com/a` (with no
favicon) into an empty database at time 1000. -/
def c1Store : Store :=
  (MarkVisit ⟨[], [], 1⟩ "http://example.com/a" "Example A" "" none 1000 []).2

/-- The store after two serialized `MarkVisit` calls for the same url
`http://example.com/a` into an empty database, at times 1000 and 2000. -/
def c2Store2 : Store :=
  (MarkVisit (MarkVisit ⟨[], [], 1⟩ "http://example.com/a" "T" "" none 1000 []).2
    "http://example.com/a" "T" "" none 2000 []).2

/-- A store with one fresh page referencing favicon id 1, plus favicon id 2 which
no page references (an orphan). -/
def c3Store : Store :=
  { pages := [⟨"http://a.example/", HashString "http://a.example/", "a.example/", "A",
               some 1, 1000, 1, 1000 + kVisitTimeWorthSeconds⟩],
    favicons := [⟨1, "http://a.example/f.ico", HashString "http://a.example/f.ico", 5, [1]⟩,
                 ⟨2, "http://b.example/f.ico", HashString "http://b.example/f.ico", 6, [2]⟩],
    next_favicon_id := 3 }

/-- A store with two pages of different frecency whose url and title both contain
the token `site`. -/
def c4Store : Store :=
  { pages := [⟨"http://site.low/", HashString "http://site.low/", "site.low/", "site low",
               none, 1000, 1, 1000 + kVisitTimeWorthSeconds⟩,
              ⟨"http://site.high/", HashString "http://site.high/", "site.high/", "site high",
               none, 2000, 5, 2000 + 5 * kVisitTimeWorthSeconds⟩],
    favicons := [],
    next_favicon_id := 1 }

/-- A page last visited at time 0, stale at any sweep time past the retention
window. -/
def c9Page : PageRecord :=
  ⟨"http://old.example/", 11, "old.example/", "O", none, 0, 1, 0⟩

/-- A store holding only `c9Page`. -/
def c9Store : Store := ⟨[c9Page], [], 1⟩

theorem dropWhile_eq_nil_of_all {p : Char → Bool} :
    ∀ l : List Char, l.all p = true → l.dropWhile p = []
  | [], _ => rfl
  | c :: rest, h => by
    rcases List.all_eq_true.mp h with _
    have hc : p c = true := List.all_eq_true.mp h c (List.mem_cons_self c rest)
    have hrest : rest.all p = true :=
      List.all_eq_true.mpr (fun x hx => List.all_eq_true.mp h x (List.mem_cons_of_mem c hx))
    simp [List.dropWhile, hc, dropWhile_eq_nil_of_all rest hrest]

theorem qTrimData_all_space (l : List Char) (h : l.all qIsSpace = true) :
    qTrimData l = [] := by
  unfold qTrimData
  rw [dropWhile_eq_nil_of_all l h]
  rfl

/-- Claim C5: for every input text that is empty or consists only of whitespace,
`AutocompleteSuggest` returns an empty sequence and hands no statement to
storage, whatever the engine, the store, the pixmap cache and the limit. -/
theorem autocomplete_c5 (engine : String → Option (List SuggestRow)) (st : Store)
    (cache : List (String × List Nat)) (text : String) (count : Int)
    (h : text.data.all qIsSpace = true) :
    AutocompleteSuggest engine st cache text count = ([], []) := by
  have ht : qTrimData text.data = [] := qTrimData_all_space _ h
  have hts : toSearchData text.data = [' '] := by
    unfold toSearchData
    rw [ht]
    rfl
  unfold AutocompleteSuggest toSearch
  rw [hts]
  rfl

theorem autocomplete_c5_wit :
    ("   ".data.all qIsSpace = true)
    ∧ AutocompleteSuggest (fun _ => none) ⟨[], [], 1⟩ [] "   " 5 = ([], []) :=
  ⟨by decide, autocomplete_c5 (fun _ => none) ⟨[], [], 1⟩ [] "   " 5 (by decide)⟩

/-- Claim C7: for every url with no scheme separator, `MarkVisit` fails
immediately and mutates nothing, whatever the other arguments, the store and the
error schedule. -/
theorem markvisit_c7 (st : Store) (url title favicon_url : String)
    (favicon : Option Icon) (now : Int) (errs : List Bool)
    (h : hasSchemeSep url = false) :
    MarkVisit st url title favicon_url favicon now errs = (false, st) := by
  cases hs : sepIndex url.data with
  | none => unfold MarkVisit; rw [hs]
  | some i => rw [hasSchemeSep, hs] at h; simp at h

theorem markvisit_c7_wit :
    (hasSchemeSep "not-a-url" = false)
    ∧ MarkVisit ⟨[], [], 1⟩ "not-a-url" "T" "" none 5 [] = (false, ⟨[], [], 1⟩) :=
  ⟨by decide, markvisit_c7 ⟨[], [], 1⟩ "not-a-url" "T" "" none 5 [] (by decide)⟩

/-- Claim C9: after one Expirer sweep at time `now`, a page record with
`last_visited < now - kExpireNotVisitedSinceSeconds` is absent and one with
`last_visited ≥ now - kExpireNotVisitedSinceSeconds` survives. -/
theorem expire_c9 (st : Store) (now : Int) (r : PageRecord) (hr : r ∈ st.pages) :
    (r.last_visited < now - kExpireNotVisitedSinceSeconds →
       r ∉ (DoExpiration st now).pages)
    ∧ (now - kExpireNotVisitedSinceSeconds ≤ r.last_visited →
       r ∈ (DoExpiration st now).pages) := by
  constructor
  · intro hlt hmem
    have hp := (List.mem_filter.mp hmem).2
    simp only [Bool.not_eq_true', decide_eq_false_iff_not] at hp
    exact hp hlt
  · intro hge
    refine List.mem_filter.mpr ⟨hr, ?_⟩
    simp only [Bool.not_eq_true', decide_eq_false_iff_not]
    exact not_lt.mpr hge

theorem expire_c9_wit :
    (c9Page ∈ c9Store.pages)
    ∧ ((c9Page.last_visited < 99999999 - kExpireNotVisitedSinceSeconds →
          c9Page ∉ (DoExpiration c9Store 99999999).pages)
       ∧ (99999999 - kExpireNotVisitedSinceSeconds ≤ c9Page.last_visited →
          c9Page ∈ (DoExpiration c9Store 99999999).pages)) :=
  ⟨by decide, expire_c9 c9Store 99999999 c9Page (by decide)⟩

/-- Claim C2 fails on the code: two serialized `MarkVisit` calls for the same url
(with a scheme separator) both succeed, yet afterwards the store holds two
records for that url, each with `visit_count = 1` and `frecency = t_i +
kVisitTimeWorthSeconds` — not one record with `visit_count = 2`.  The UPDATE's
WHERE clause binds the url string to the `url_hash` column and the integer hash
to the `url` column (page_index.cc lines 73-75), so it never matches and every
call inserts a fresh row. -/
theorem markvisit_c2 :
    ((MarkVisit ⟨[], [], 1⟩ "http://example.com/a" "T" "" none 1000 []).1 = true)
    ∧ ((MarkVisit (MarkVisit ⟨[], [], 1⟩ "http://example.com/a" "T" "" none 1000 []).2
         "http://example.com/a" "T" "" none 2000 []).1 = true)
    ∧ (c2Store2.pages.map (fun r => (r.url, r.visit_count, r.frecency))
        = [("http://example.com/a", 1, 1000 + kVisitTimeWorthSeconds),
           ("http://example.com/a", 1, 2000 + kVisitTimeWorthSeconds)]) := by
  refine ⟨by decide, by decide, by decide⟩

/-- Claim C3 fails on the code: the favicon sweep deletes the rows whose id IS
referenced by a remaining page and keeps the orphans.  In `c3Store` favicon 1 is
referenced by the surviving page and favicon 2 is an orphan, yet after the sweep
only favicon 2 remains. -/
theorem expire_c3 :
    ((DoExpiration c3Store 1000).pages.map (fun r => r.url) = ["http://a.example/"])
    ∧ ((DoExpiration c3Store 1000).pages.map (fun r => r.favicon_id) = [some 1])
    ∧ ((DoExpiration c3Store 1000).favicons.map (fun f => f.id) = [2]) := by
  refine ⟨by decide, by decide, by decide⟩

theorem suggest_fail (engine : String → Option (List SuggestRow)) (st : Store)
    (cache : List (String × List Nat)) (text : String) (count : Int)
    (hlen : ¬ ((toSearch text).data.length = 1))
    (he : engine (qtArgFieldWidth autocompleteSqlTemplate (toSearch text) count) = none) :
    AutocompleteSuggest engine st cache text count
      = ([], [qtArgFieldWidth autocompleteSqlTemplate (toSearch text) count]) := by
  simp only [AutocompleteSuggest]
  rw [if_neg hlen, he]

/-- Claim C1 fails on the code: a successful `MarkVisit` of `http://example.com/a`
records the page, yet `AutocompleteSuggest` with the token `example` (drawn from
the title and the url) returns the empty list, because the single
`QString::arg(to_search, count)` call uses the field-width overload, so the
statement still ends in the unsubstituted marker `LIMIT %2` and the storage
engine cannot execute it. -/
theorem autocomplete_c1 (engine : String → Option (List SuggestRow))
    (h : rejectsBadLimit engine) :
    ((MarkVisit ⟨[], [], 1⟩ "http://example.com/a" "Example A" "" none 1000 []).1 = true)
    ∧ (c1Store.pages.map (fun r => (r.url, r.title))
        = [("http://example.com/a", "Example A")])
    ∧ ((AutocompleteSuggest engine c1Store [] "example" 10).1 = []) := by
  refine ⟨by decide, by decide, ?_⟩
  have he : engine (qtArgFieldWidth autocompleteSqlTemplate (toSearch "example") 10) = none :=
    h _ (by decide)
  rw [suggest_fail engine c1Store [] "example" 10 (by decide) he]

theorem autocomplete_c1_wit :
    rejectsBadLimit (fun _ => none)
    ∧ ((AutocompleteSuggest (fun _ => none) c1Store [] "example" 10).1 = []) :=
  ⟨fun _ _ => rfl, (autocomplete_c1 (fun _ => none) (fun _ _ => rfl)).2.2⟩

/-- Claim C4 fails on the code: the statement handed to storage still ends in the
unsubstituted marker `LIMIT %2` (the `arg` call treats `count` as a field width),
so execution fails and the result is always empty instead of the frecency-capped
list; moreover the template orders by `frecency` with no `DESC`, i.e. ascending.
Here `c4Store` holds two matching pages of different frecency and the limit is 1,
yet nothing is returned. -/
theorem autocomplete_c4 (engine : String → Option (List SuggestRow))
    (h : rejectsBadLimit engine) :
    (("%2".data).isSuffixOf (autocompleteSqlFor "site" 1).data = true)
    ∧ (hasSeq ("DESC".data) autocompleteSqlTemplate.data = false)
    ∧ (AutocompleteSuggest engine c4Store [] "site" 1
        = ([], [autocompleteSqlFor "site" 1])) := by
  refine ⟨by decide, by decide, ?_⟩
  have he : engine (qtArgFieldWidth autocompleteSqlTemplate (toSearch "site") 1) = none :=
    h _ (by decide)
  exact suggest_fail engine c4Store [] "site" 1 (by decide) he

theorem autocomplete_c4_wit :
    rejectsBadLimit (fun _ => none)
    ∧ (AutocompleteSuggest (fun _ => none) c4Store [] "site" 1
        = ([], [autocompleteSqlFor "site" 1])) :=
  ⟨fun _ _ => rfl, (autocomplete_c4 (fun _ => none) (fun _ _ => rfl)).2.2⟩

/-- Claim C6 as stated is false: on the input `a<TAB>b` the code splits only on
the space character, producing the single quoted term of `' "a\tb"* '`, while the
claim's procedure (split on whitespace, join the wrapped tokens with spaces)
produces two terms. -/
theorem tosearch_c6_cex : ¬ (toSearch "a\tb" = toSearchClaim "a\tb") := by decide

theorem doubleQ_nil : doubleQ [] = [] := rfl

theorem doubleQ_cons (c : Char) (rest : List Char) :
    doubleQ (c :: rest) = if c = '"' then '"' :: '"' :: doubleQ rest else c :: doubleQ rest := rfl

theorem splitCh_cons (c : Char) (rest : List Char) :
    splitCh (c :: rest) = if c = ' ' then [] :: splitCh rest
      else (match splitCh rest with | [] => [[c]] | g :: gs => (c :: g) :: gs) := rfl

theorem splitCh_ne_nil : ∀ l : List Char, splitCh l ≠ []
  | [] => by simp [splitCh]
  | c :: rest => by
    rw [splitCh_cons]
    by_cases hc : c = ' '
    · simp [hc]
    · rw [if_neg hc]
      cases h : splitCh rest with
      | nil => simp
      | cons g gs => simp

theorem doubleQ_isEmpty (p : List Char) : (doubleQ p).isEmpty = p.isEmpty := by
  cases p with
  | nil => rfl
  | cons c rest =>
    rw [doubleQ_cons]
    by_cases hc : c = '"' <;> simp [hc]

theorem splitCh_doubleQ : ∀ l : List Char, splitCh (doubleQ l) = (splitCh l).map doubleQ
  | [] => rfl
  | c :: rest => by
    have ih := splitCh_doubleQ rest
    rcases hsr : splitCh rest with _ | ⟨g, gs⟩
    · exact absurd hsr (splitCh_ne_nil rest)
    by_cases hsp : c = ' '
    · subst hsp
      simp [doubleQ_cons, splitCh_cons, ih, doubleQ_nil]
    · by_cases hc : c = '"'
      · subst hc
        simp [doubleQ_cons, splitCh_cons, ih, hsr]
      · simp [doubleQ_cons, splitCh_cons, ih, hsr, hsp, hc]

theorem filter_map_ofPres {α : Type} (p : α → Bool) (g : α → α)
    (hp : ∀ a, p (g a) = p a) : ∀ l : List α, (l.map g).filter p = (l.filter p).map g
  | [] => rfl
  | a :: t => by
    simp only [List.map_cons, List.filter_cons]
    rw [hp a]
    by_cases ha : p a = true
    · simp only [ha, if_true, List.map_cons]
      rw [filter_map_ofPres p g hp t]
    · simp only [ha, if_false, Bool.false_eq_true]
      rw [filter_map_ofPres p g hp t]

theorem intercalate_space_cons_cons (a b : List Char) (l : List (List Char)) :
    List.intercalate [' '] (a :: b :: l) = a ++ [' '] ++ List.intercalate [' '] (b :: l) := by
  simp [List.intercalate, List.intersperse, List.append_assoc]

theorem join_map_space : ∀ ts : List (List Char), ts ≠ [] →
    (ts.map (fun w => w ++ [' '])).flatten = List.intercalate [' '] ts ++ [' ']
  | [], h => absurd rfl h
  | [t], _ => by simp [List.intercalate, List.intersperse]
  | t :: u :: us, _ => by
    have ih := join_map_space (u :: us) (by simp)
    simp only [List.map_cons, List.flatten_cons] at ih ⊢
    rw [ih, intercalate_space_cons_cons]
    simp [List.append_assoc]

theorem toSearchData_amended (l : List Char) : toSearchData l = toSearchAmendedData l := by
  unfold toSearchData toSearchAmendedData nonEmptyParts
  rw [splitCh_doubleQ (qTrimData l)]
  rw [filter_map_ofPres (fun p => !p.isEmpty) doubleQ
    (fun a => by show (!(doubleQ a).isEmpty) = (!a.isEmpty); rw [doubleQ_isEmpty])]
  rw [List.map_map]
  have hfn : ((fun p => '"' :: (p ++ ['"', '*', ' '])) ∘ doubleQ)
      = fun t => wrapTokenClaim t ++ [' '] := by
    funext t
    simp [Function.comp, wrapTokenClaim, List.append_assoc]
  rw [hfn]
  have hsplit : (fun t => wrapTokenClaim t ++ [' '])
      = ((fun w => w ++ [' ']) ∘ wrapTokenClaim) := rfl
  rw [hsplit, ← List.map_map]
  cases htoks : ((splitCh (qTrimData l)).filter (fun p => !p.isEmpty)).map wrapTokenClaim with
  | nil => rfl
  | cons w ws =>
    rw [join_map_space (w :: ws) (by simp)]

/-- Claim C6 amended: `AutocompleteSuggest` builds its search string by splitting
the trimmed text on the space character (not on arbitrary whitespace) into
non-empty tokens, doubling every quote character embedded in a token, wrapping
each token in quotes followed by the wildcard marker, joining the wrapped tokens
with single spaces, and surrounding the whole with a leading space and — when at
least one token exists — a trailing space. -/
theorem tosearch_c6 (text : String) : toSearch text = toSearchAmended text := by
  unfold toSearch toSearchAmended
  exact congrArg String.mk (toSearchData_amended text.data)

theorem sepIndex_cons (c : Char) (rest : List Char) :
    sepIndex (c :: rest) = if startsWithSep (c :: rest) then some 0
      else (sepIndex rest).map (fun i => i + 1) := rfl

theorem startsWithSep_shape (l : List Char) (h : startsWithSep l = true) :
    ∃ t, l = ':' :: '/' :: '/' :: t := by
  rcases l with _ | ⟨c1, _ | ⟨c2, _ | ⟨c3, t⟩⟩⟩
  · simp [startsWithSep] at h
  · simp [startsWithSep] at h
  · simp [startsWithSep] at h
  · simp only [startsWithSep, Bool.and_eq_true, beq_iff_eq] at h
    obtain ⟨⟨h1, h2⟩, h3⟩ := h
    subst h1; subst h2; subst h3
    exact ⟨t, rfl⟩

theorem sepIndex_colon_mem : ∀ (l : List Char) (i : Nat), sepIndex l = some i → ':' ∈ l
  | [], i, h => by simp [sepIndex] at h
  | c :: rest, i, h => by
    by_cases hs : startsWithSep (c :: rest) = true
    · obtain ⟨t, ht⟩ := startsWithSep_shape _ hs
      rw [ht]
      simp
    · rw [sepIndex_cons, if_neg hs] at h
      rcases Option.map_eq_some'.mp h with ⟨j, hj, _⟩
      exact List.mem_cons_of_mem c (sepIndex_colon_mem rest j hj)

theorem colon_textToIntAff (l : List Char) (h : ':' ∈ l) : textToIntAff l = none := by
  match l with
  | [] => simp at h
  | c :: rest =>
    by_cases hc : c = '-'
    · subst hc
      have hr : ':' ∈ rest := by
        rcases List.mem_cons.mp h with h1 | h2
        · exact absurd h1 (by decide)
        · exact h2
      have hall : rest.all Char.isDigit = false := by
        cases hall2 : rest.all Char.isDigit
        · rfl
        · exact absurd (List.all_eq_true.mp hall2 ':' hr) (by decide)
      simp [textToIntAff, hall]
    · have hall : (c :: rest).all Char.isDigit = false := by
        cases hall2 : (c :: rest).all Char.isDigit
        · rfl
        · exact absurd (List.all_eq_true.mp hall2 ':' h) (by decide)
      simp only [textToIntAff]
      rw [if_neg hc, if_neg]
      rw [hall]
      exact Bool.false_ne_true

theorem matches_false_of_sep (url : String) (hashP : Int) (r : PageRecord)
    (h : textToIntAff url.data = none) :
    markVisitUpdateMatches url hashP r = false := by
  unfold markVisitUpdateMatches intEqTextAff
  rw [h]
  rfl

theorem countP_false {α : Type} (p : α → Bool) (h : ∀ a, p a = false) :
    ∀ l : List α, l.countP p = 0
  | [] => rfl
  | a :: t => by
    rw [List.countP_cons, h a]
    simp [countP_false p h t]

theorem map_if_id {α : Type} (p : α → Bool) (f : α → α) (h : ∀ a, p a = false) :
    ∀ l : List α, (l.map (fun a => if p a then f a else a)) = l
  | [] => rfl
  | a :: t => by
    rw [List.map_cons, h a]
    simp [map_if_id p f h t]

/-- Claim C10: when the favicon SELECT inside `FaviconId` fails (the first entry
of the error schedule), the error is swallowed — `FaviconId` returns the null
reference and an untouched store — and the enclosing `MarkVisit` still succeeds,
recording the visit with no favicon attached. -/
theorem markvisit_c10 (st : Store) (url title furl : String) (icon : Icon) (now : Int)
    (hs : hasSchemeSep url = true) (hf : furl.data.isEmpty = false) :
    (FaviconId st furl (some icon) [true] = (none, st, []))
    ∧ (MarkVisit st url title furl (some icon) now [true]
        = (true, { st with pages := st.pages ++
            [⟨url, HashString url, schemelessUrl url, title, none, now, 1,
              now + kVisitTimeWorthSeconds⟩] })) := by
  have hfav : FaviconId st furl (some icon) [true] = (none, st, []) := by
    simp [FaviconId, hf, popE]
  refine ⟨hfav, ?_⟩
  rw [hasSchemeSep] at hs
  obtain ⟨i, hi⟩ := Option.isSome_iff_exists.mp hs
  have hnone : textToIntAff url.data = none :=
    colon_textToIntAff _ (sepIndex_colon_mem _ i hi)
  have hm : ∀ r, markVisitUpdateMatches url (HashString url) r = false :=
    fun r => matches_false_of_sep url (HashString url) r hnone
  have hsl : schemelessUrl url = (⟨url.data.drop (i + 3)⟩ : String) := by
    rw [schemelessUrl, hi]
  rw [hsl]
  simp only [MarkVisit, hi]
  rw [hfav]
  simp only [popE]
  rw [countP_false _ hm st.pages, map_if_id _ _ hm st.pages]
  simp

theorem markvisit_c10_wit :
    (hasSchemeSep "http://a.b/c" = true)
    ∧ ("http://a.b/f.ico".data.isEmpty = false)
    ∧ ((FaviconId ⟨[], [], 1⟩ "http://a.b/f.ico" (some ⟨5, [9]⟩) [true]
          = (none, ⟨[], [], 1⟩, []))
       ∧ (MarkVisit ⟨[], [], 1⟩ "http://a.b/c" "T" "http://a.b/f.ico" (some ⟨5, [9]⟩) 50 [true]
           = (true,
              ⟨[⟨"http://a.b/c", HashString "http://a.b/c", schemelessUrl "http://a.b/c", "T",
                 none, 50, 1, 50 + kVisitTimeWorthSeconds⟩], [], 1⟩))) :=
  ⟨by decide, by decide,
   markvisit_c10 ⟨[], [], 1⟩ "http://a.b/c" "T" "http://a.b/f.ico" ⟨5, [9]⟩ 50
     (by decide) (by decide)⟩

theorem find_cons_eq {α : Type} (p : α → Bool) (a : α) (l : List α) :
    (a :: l).find? p = match p a with | true => some a | false => l.find? p := rfl

theorem find_map_pres {α : Type} (p : α → Bool) (g : α → α)
    (hp : ∀ a, p (g a) = p a) : ∀ l : List α, (l.map g).find? p = (l.find? p).map g
  | [] => rfl
  | a :: t => by
    rw [List.map_cons, find_cons_eq, find_cons_eq, hp a]
    cases h : p a with
    | true => rfl
    | false => exact find_map_pres p g hp t

theorem find_append_none {α : Type} (p : α → Bool) :
    ∀ (l1 l2 : List α), l1.find? p = none → (l1 ++ l2).find? p = l2.find? p
  | [], l2, _ => rfl
  | a :: t, l2, h => by
    rw [find_cons_eq] at h
    rw [List.cons_append, find_cons_eq]
    cases ha : p a with
    | true => rw [ha] at h; exact absurd h (by simp)
    | false => rw [ha] at h; exact find_append_none p t l2 h

theorem faviconMatch_upd (hsh : Int) (u : String) (i : Nat) (k : Int) (d : List Nat)
    (f : FaviconRecord) : faviconMatch hsh u (faviconUpd i k d f) = faviconMatch hsh u f := by
  unfold faviconUpd
  by_cases hf : (f.id == i) = true <;> simp [hf, faviconMatch]

theorem FaviconId_insert (st : Store) (url : String) (icon : Icon)
    (h : url.data.isEmpty = false)
    (hf0 : st.favicons.find? (faviconMatch (HashString url) url) = none) :
    FaviconId st url (some icon) []
      = (some st.next_favicon_id,
         { st with
             favicons := st.favicons ++
               [⟨st.next_favicon_id, url, HashString url, icon.cacheKey, icon.png⟩],
             next_favicon_id := st.next_favicon_id + 1 },
         []) := by
  simp [FaviconId, h, popE, hf0]

theorem FaviconId_stale (st : Store) (url : String) (icon : Icon) (fr : FaviconRecord)
    (h : url.data.isEmpty = false)
    (hf0 : st.favicons.find? (faviconMatch (HashString url) url) = some fr)
    (hkey : (icon.cacheKey != fr.data_key) = true) :
    FaviconId st url (some icon) []
      = (some fr.id,
         { st with favicons := st.favicons.map (faviconUpd fr.id icon.cacheKey icon.png) },
         []) := by
  simp [FaviconId, h, popE, hf0, hkey]

theorem FaviconId_fresh (st : Store) (url : String) (icon : Icon) (fr : FaviconRecord)
    (h : url.data.isEmpty = false)
    (hf0 : st.favicons.find? (faviconMatch (HashString url) url) = some fr)
    (hkey : (icon.cacheKey != fr.data_key) = false) :
    FaviconId st url (some icon) [] = (some fr.id, st, []) := by
  simp [FaviconId, h, popE, hf0, hkey]

theorem upsert_found (st : Store) (url : String) (k : Int) (b : List Nat)
    (h : url.data.isEmpty = false) :
    ∃ i d, (upsertIcon st url k b).1 = some i
      ∧ (upsertIcon st url k b).2.favicons.find? (faviconMatch (HashString url) url)
          = some ⟨i, url, HashString url, k, d⟩ := by
  unfold upsertIcon
  cases hf0 : st.favicons.find? (faviconMatch (HashString url) url) with
  | none =>
    rw [FaviconId_insert st url ⟨k, b⟩ h hf0]
    refine ⟨st.next_favicon_id, b, ?_, ?_⟩
    · rfl
    · show (st.favicons ++
          [(⟨st.next_favicon_id, url, HashString url, k, b⟩ : FaviconRecord)]).find? _ = _
      rw [find_append_none _ _ _ hf0, find_cons_eq]
      have hm : faviconMatch (HashString url) url
          ⟨st.next_favicon_id, url, HashString url, k, b⟩ = true := by
        simp [faviconMatch]
      rw [hm]
  | some fr =>
    have hfr := List.find?_some hf0
    simp only [faviconMatch, Bool.and_eq_true, beq_iff_eq] at hfr
    obtain ⟨hfr1, hfr2⟩ := hfr
    cases hkey : ((⟨k, b⟩ : Icon).cacheKey != fr.data_key) with
    | true =>
      rw [FaviconId_stale st url ⟨k, b⟩ fr h hf0 hkey]
      refine ⟨fr.id, b, ?_, ?_⟩
      · rfl
      · show (st.favicons.map (faviconUpd fr.id k b)).find? _ = _
        rw [find_map_pres _ _ (fun a => faviconMatch_upd _ _ _ _ _ a) st.favicons, hf0]
        show some (faviconUpd fr.id k b fr) = _
        unfold faviconUpd
        rw [if_pos (by simp)]
        rw [← hfr1, ← hfr2]
    | false =>
      rw [FaviconId_fresh st url ⟨k, b⟩ fr h hf0 hkey]
      have hdk : fr.data_key = k := by
        have hne : ¬ ((k != fr.data_key) = true) := by rw [hkey]; simp
        simp only [bne_iff_ne, ne_eq, not_not] at hne
        exact hne.symm
      refine ⟨fr.id, fr.data, ?_, ?_⟩
      · rfl
      · rw [hf0, ← hfr1, ← hfr2, ← hdk]

theorem upsert_nochange (s : Store) (url : String) (i : Nat) (k0 : Int) (d0 b1 : List Nat)
    (h : url.data.isEmpty = false)
    (hfind : s.favicons.find? (faviconMatch (HashString url) url)
      = some ⟨i, url, HashString url, k0, d0⟩) :
    upsertIcon s url k0 b1 = (some i, s) := by
  unfold upsertIcon
  rw [FaviconId_fresh s url ⟨k0, b1⟩ ⟨i, url, HashString url, k0, d0⟩ h hfind (by simp)]

theorem upsert_change (s : Store) (url : String) (i : Nat) (k0 k1 : Int) (d0 b1 : List Nat)
    (h : url.data.isEmpty = false) (hk : k1 ≠ k0)
    (hfind : s.favicons.find? (faviconMatch (HashString url) url)
      = some ⟨i, url, HashString url, k0, d0⟩) :
    upsertIcon s url k1 b1
      = (some i, { s with favicons := s.favicons.map (faviconUpd i k1 b1) })
    ∧ ({ s with favicons := s.favicons.map (faviconUpd i k1 b1) } : Store).favicons.find?
        (faviconMatch (HashString url) url) = some ⟨i, url, HashString url, k1, b1⟩ := by
  constructor
  · unfold upsertIcon
    rw [FaviconId_stale s url ⟨k1, b1⟩ ⟨i, url, HashString url, k0, d0⟩ h hfind
      (bne_iff_ne.mpr hk)]
  · show (s.favicons.map (faviconUpd i k1 b1)).find? _ = _
    rw [find_map_pres _ _ (fun a => faviconMatch_upd _ _ _ _ _ a) s.favicons, hfind]
    show some (faviconUpd i k1 b1 ⟨i, url, HashString url, k0, d0⟩) = _
    unfold faviconUpd
    rw [if_pos (by simp)]

/-- Claim C8: for a non-empty favicon url and a non-null icon, upserting twice
with the same fingerprint returns the same id both times and leaves the store
untouched the second time; upserting again with a different fingerprint still
returns that id and updates the stored `data_key` and `data` in place (same
number of rows, the matching row now carrying the new fingerprint and bytes). -/
theorem favicon_c8 (st : Store) (url : String) (k kp : Int) (b bp : List Nat)
    (h : url.data.isEmpty = false) (hk : kp ≠ k) :
    ((upsertIcon (upsertIcon st url k b).2 url k b).1 = (upsertIcon st url k b).1
      ∧ (upsertIcon (upsertIcon st url k b).2 url k b).2 = (upsertIcon st url k b).2)
    ∧ (∃ i, (upsertIcon st url k b).1 = some i
        ∧ (upsertIcon (upsertIcon st url k b).2 url kp bp).1 = some i
        ∧ ((upsertIcon (upsertIcon st url k b).2 url kp bp).2).favicons.find?
             (faviconMatch (HashString url) url)
            = some ⟨i, url, HashString url, kp, bp⟩
        ∧ ((upsertIcon (upsertIcon st url k b).2 url kp bp).2).favicons.length
            = ((upsertIcon st url k b).2).favicons.length) := by
  obtain ⟨i, d, hi1, hfind1⟩ := upsert_found st url k b h
  have hno := upsert_nochange (upsertIcon st url k b).2 url i k d b h hfind1
  have hch := upsert_change (upsertIcon st url k b).2 url i k kp d bp h hk hfind1
  constructor
  · constructor
    · rw [hno]
      exact hi1.symm
    · rw [hno]
  · refine ⟨i, hi1, ?_, ?_, ?_⟩
    · rw [hch.1]
    · rw [hch.1]
      exact hch.2
    · rw [hch.1]
      show ((upsertIcon st url k b).2.favicons.map (faviconUpd i kp bp)).length
        = (upsertIcon st url k b).2.favicons.length
      rw [List.length_map]

theorem favicon_c8_wit :
    ("http://e.example/f.ico".data.isEmpty = false)
    ∧ ((7 : Int) ≠ 5)
    ∧ (((upsertIcon (upsertIcon ⟨[], [], 1⟩ "http://e.example/f.ico" 5 [1]).2
          "http://e.example/f.ico" 5 [1]).1
        = (upsertIcon ⟨[], [], 1⟩ "http://e.example/f.ico" 5 [1]).1
      ∧ (upsertIcon (upsertIcon ⟨[], [], 1⟩ "http://e.example/f.ico" 5 [1]).2
          "http://e.example/f.ico" 5 [1]).2
        = (upsertIcon ⟨[], [], 1⟩ "http://e.example/f.ico" 5 [1]).2)
    ∧ (∃ i, (upsertIcon ⟨[], [], 1⟩ "http://e.example/f.ico" 5 [1]).1 = some i
        ∧ (upsertIcon (upsertIcon ⟨[], [], 1⟩ "http://e.example/f.ico" 5 [1]).2
            "http://e.example/f.ico" 7 [2]).1 = some i
        ∧ ((upsertIcon (upsertIcon ⟨[], [], 1⟩ "http://e.example/f.ico" 5 [1]).2
             "http://e.example/f.ico" 7 [2]).2).favicons.find?
             (faviconMatch (HashString "http://e.example/f.ico") "http://e.example/f.ico")
            = some ⟨i, "http://e.example/f.ico", HashString "http://e.example/f.ico", 7, [2]⟩
        ∧ ((upsertIcon (upsertIcon ⟨[], [], 1⟩ "http://e.example/f.ico" 5 [1]).2
             "http://e.example/f.ico" 7 [2]).2).favicons.length
            = ((upsertIcon ⟨[], [], 1⟩ "http://e.example/f.ico" 5 [1]).2).favicons.length)) :=
  ⟨by decide, by decide,
   favicon_c8 ⟨[], [], 1⟩ "http://e.example/f.ico" 5 7 [1] [2] (by decide) (by decide)⟩

end Doogie
